import Mathlib

/-!
Shallow embedding of `src/app.py` (a Flask app with two POST handlers,
`/generate-images` and `/generate-video`, plus the helper `upload_to_gcs`).

External effects (GCS uploads, Gemini image generation, the Veo video
long-running operation, the process clock and uuid generation) are modelled
by a `World` of oracles; each handler is a pure function of the module-level
environment (`Env`), the parsed request JSON and the `World`, returning the
HTTP result, the list of external calls it attempted, and the final
module-level environment.
-/

namespace App

instance {ε α : Type} [DecidableEq ε] [DecidableEq α] : DecidableEq (Except ε α) := fun x y =>
  match x, y with
  | .error a, .error b =>
    match decEq a b with
    | isTrue h => isTrue (by rw [h])
    | isFalse h => isFalse (fun hc => h (by cases hc; rfl))
  | .ok a, .ok b =>
    match decEq a b with
    | isTrue h => isTrue (by rw [h])
    | isFalse h => isFalse (fun hc => h (by cases hc; rfl))
  | .error _, .ok _ => isFalse (fun hc => by cases hc)
  | .ok _, .error _ => isFalse (fun hc => by cases hc)

/-- `str.strip` with no argument: remove whitespace from both ends.
(Implemented on the character list; the exotic Unicode whitespace Python
also strips is not modelled.) -/
def pyTrim (s : String) : String :=
  String.mk (((s.toList.dropWhile Char.isWhitespace).reverse.dropWhile
    Char.isWhitespace).reverse)

/-- `s.startswith(pre)`, on the character lists. -/
def pyStartsWith (s pre : String) : Bool :=
  pre.toList.isPrefixOf s.toList

/-- A JSON value as far as the handlers inspect it: the request fields are
strings, integers, or null.  (`request.json` itself is `Option` of a
key/value list; `none` models an absent or unparsable JSON body.) -/
inductive JVal where
  | jstr (s : String)
  | jint (n : Int)
  | jnull
deriving DecidableEq, Repr

/-- A parsed request body: `none` when there is no JSON body. -/
abbrev ReqJson := Option (List (String × JVal))

/-- Dictionary lookup, first binding wins (Python dicts have unique keys). -/
def jlookup (kvs : List (String × JVal)) (k : String) : Option JVal :=
  (kvs.find? (fun p => p.1 == k)).map (fun p => p.2)

/-- Truthiness of `request.json` as used in `if not request.json`:
falsy when the body is absent or the parsed dict is empty. -/
def jsonFalsy : ReqJson → Bool
  | none => true
  | some kvs => kvs.isEmpty

/-- The Python exception values the handlers can see, by class.
`binasciiError` models `binascii.Error`, a subclass of `ValueError`. -/
inductive PyExc where
  | googleAPIError (m : String)
  | valueError (m : String)
  | binasciiError (m : String)
  | typeError (m : String)
  | attributeError (m : String)
  | connectionError (m : String)
  | timeoutError (m : String)
  | otherError (m : String)
deriving DecidableEq, Repr

/-- `str(e)`: the message carried by the exception. -/
def PyExc.msg : PyExc → String
  | .googleAPIError m => m
  | .valueError m => m
  | .binasciiError m => m
  | .typeError m => m
  | .attributeError m => m
  | .connectionError m => m
  | .timeoutError m => m
  | .otherError m => m

/-- Does `except google_exceptions.GoogleAPIError` catch this exception? -/
def PyExc.isGoogleAPIError : PyExc → Bool
  | .googleAPIError _ => true
  | _ => false

/-- Does `except ValueError` catch this exception?
(`binascii.Error` is a `ValueError` subclass.) -/
def PyExc.isValueError : PyExc → Bool
  | .valueError _ => true
  | .binasciiError _ => true
  | _ => false

/-- Does `except TimeoutError` catch this exception? -/
def PyExc.isTimeoutError : PyExc → Bool
  | .timeoutError _ => true
  | _ => false

/-- `int(x)` on a JSON value (app.py line 125).  A string is stripped and
parsed as an optionally signed decimal integer (underscore separators of
Python integer literals are not modelled); `None` raises `TypeError`. -/
def pyIntDigits : List Char → Option Nat
  | [] => none
  | cs => if cs.all (fun c => c.isDigit)
          then some (cs.foldl (fun a c => a * 10 + (c.toNat - 48)) 0)
          else none

def pyIntOfString (s : String) : Option Int :=
  match (pyTrim s).toList with
  | '+' :: cs => (pyIntDigits cs).map (fun n => (n : Int))
  | '-' :: cs => (pyIntDigits cs).map (fun n => -(n : Int))
  | cs => (pyIntDigits cs).map (fun n => (n : Int))

def pyInt : JVal → Except PyExc Int
  | .jint n => .ok n
  | .jstr s =>
    match pyIntOfString s with
    | some n => .ok n
    | none => .error (.valueError ("invalid literal for int() with base 10: " ++ s))
  | .jnull => .error (.typeError "int() argument cannot be NoneType")

/-- `x.strip()` on a JSON value: defined for strings, otherwise the
attribute lookup raises `AttributeError` (app.py lines 121 and 220). -/
def pyStrip : JVal → Except PyExc String
  | .jstr s => .ok (pyTrim s)
  | .jint _ => .error (.attributeError "int object has no attribute strip")
  | .jnull => .error (.attributeError "NoneType object has no attribute strip")

/-- `x[:8]` on a JSON value: defined for strings, otherwise subscripting
raises `TypeError` (app.py line 225). -/
def pySlice8 : JVal → Except PyExc String
  | .jstr s => .ok (s.take 8)
  | .jint _ => .error (.typeError "int object is not subscriptable")
  | .jnull => .error (.typeError "NoneType object is not subscriptable")

/-- `',' in s` (app.py line 140). -/
def hasComma (s : String) : Bool := s.toList.any (fun c => c == ',')

/-- `s.split(',', 1)[1]`: everything after the first comma
(app.py line 141; only evaluated when the string contains a comma). -/
def afterFirstComma (s : String) : String :=
  String.mk ((s.toList.dropWhile (fun c => c != ',')).drop 1)

/-- The base64 payload selected from `image_data` (app.py lines 140-143). -/
def extractB64 (s : String) : String :=
  if hasComma s then afterFirstComma s else s

/-- Value of a character in the standard base64 alphabet. -/
def b64Val (c : Char) : Option Nat :=
  if 'A' ≤ c ∧ c ≤ 'Z' then some (c.toNat - 65)
  else if 'a' ≤ c ∧ c ≤ 'z' then some (c.toNat - 97 + 26)
  else if '0' ≤ c ∧ c ≤ '9' then some (c.toNat - 48 + 52)
  else if c = '+' then some 62
  else if c = '/' then some 63
  else none

/-- `base64.b64decode` with the default `validate=False`, following
CPython `binascii.a2b_base64` in non-strict mode: characters outside the
alphabet are discarded; `=` padding that completes a quad ends decoding;
a trailing quad of one data character, or an unpadded quad of two or
three, raises `binascii.Error`.  State: output bytes (reversed),
accumulator, position in the current quad, pads seen in the current quad. -/
def b64Loop : List Char → List Nat → Nat → Nat → Nat → Except PyExc (List Nat)
  | [], out, _acc, quadPos, _pads =>
    if quadPos == 0 then .ok out.reverse
    else if quadPos == 1 then
      .error (.binasciiError "Invalid base64-encoded string: number of data characters cannot be 1 more than a multiple of 4")
    else .error (.binasciiError "Incorrect padding")
  | c :: rest, out, acc, quadPos, pads =>
    if c = '=' then
      if quadPos ≥ 2 then
        if quadPos + (pads + 1) ≥ 4 then .ok out.reverse
        else b64Loop rest out acc quadPos (pads + 1)
      else b64Loop rest out acc quadPos pads
    else
      match b64Val c with
      | none => b64Loop rest out acc quadPos pads
      | some v =>
        match quadPos with
        | 0 => b64Loop rest out v 1 0
        | 1 => b64Loop rest (((acc * 64 + v) / 16) :: out) ((acc * 64 + v) % 16) 2 0
        | 2 => b64Loop rest (((acc * 64 + v) / 4) :: out) ((acc * 64 + v) % 4) 3 0
        | _ => b64Loop rest ((acc * 64 + v) :: out) 0 0 0

def b64decode (s : String) : Except PyExc (List Nat) :=
  b64Loop s.toList [] 0 0 0

/-- Decoding of the `image_data` field (app.py lines 139-144): the comma
split followed by `base64.b64decode`.  On a non-string value the membership
test `',' in base64_image_data` raises `TypeError`. -/
def decodeImageData : JVal → Except PyExc (List Nat)
  | .jstr s => b64decode (extractB64 s)
  | .jint _ => .error (.typeError "argument of type int is not iterable")
  | .jnull => .error (.typeError "argument of type NoneType is not iterable")

/-- The module-level state of app.py (lines 27-80): the configured model
identifiers, project, region and bucket, and whether each of the three
clients was successfully initialized (a client variable is `None` exactly
when its `try` block failed; truthiness of a live client object is true). -/
structure Env where
  MODEL_ID_IMAGE : String := "gemini-2.0-flash-exp-image-generation"
  MODEL_ID_VIDEO : String := "veo-3.0-generate-preview"
  PROJECT_ID : String
  GCS_BUCKET_NAME : String
  LOCATION : String := "us-central1"
  gemini_image_client : Bool
  veo_video_client : Bool
  gcs_client : Bool
deriving DecidableEq, Repr

/-- One part of a Gemini candidate: `inline_data` is optional and carries a
mime type and bytes (modelled as `List Nat`). -/
structure InlineData where
  mime_type : String
  data : List Nat
deriving DecidableEq, Repr

structure GenPart where
  inline_data : Option InlineData
deriving DecidableEq, Repr

structure Candidate where
  parts : List GenPart
deriving DecidableEq, Repr

structure GenResponse where
  candidates : List Candidate
deriving DecidableEq, Repr

/-- Oracles for every external effect a request can observe. -/
structure World where
  /-- `datetime.datetime.now().strftime("%Y-%m-%d_%H-%M-%S")` at the time
  this request runs. -/
  timestamp : String
  /-- `str(uuid.uuid4())` for this request. -/
  uuid : String
  /-- Outcome of a GCS upload, by destination blob name: `none` is success. -/
  uploadErr : String → Option PyExc
  /-- Outcome of `PIL.Image.open` on the decoded sketch bytes. -/
  pilOpenErr : Option PyExc
  /-- Outcome of the i-th `generate_content` call. -/
  genContent : Nat → Except PyExc GenResponse
  /-- Outcome of the `generate_videos` call that creates the operation. -/
  genVideos : Except PyExc Unit
  /-- `operation.done` after k polls (k = 0 is the initial operation). -/
  opDone : Nat → Bool
  /-- Truthiness of `operation.response` after k polls. -/
  opResponse : Nat → Bool
  /-- `operation.result.generated_videos` uris after k polls. -/
  opVideos : Nat → List String

/-- External calls a request performs, in order. -/
inductive ExtCall where
  | uploadBlob (bucket : String) (blob : String) (ok : Bool)
  | genContentCall (i : Nat)
  | genVideosCall (outDir : String)
deriving DecidableEq, Repr

/-- A JSON response body as far as the claims inspect it. -/
structure ImageRec where
  public_url : String
  gcs_uri : String
deriving DecidableEq, Repr

inductive Resp where
  | errMsg (m : String)
  | imagesResp (job_id : String) (images : List ImageRec)
  | videoResp (generated_video_url : String)
deriving DecidableEq, Repr

/-- What a request produces: either an HTTP response built by the handler,
or an exception that escaped the handler uncaught. -/
inductive HttpResult where
  | resp (status : Nat) (body : Resp)
  | uncaught (e : PyExc)
deriving DecidableEq, Repr

structure HandlerOut where
  result : HttpResult
  calls : List ExtCall
  env : Env
deriving DecidableEq, Repr

/-- `upload_to_gcs` (app.py lines 83-103): raises `ConnectionError` when the
GCS client is missing; otherwise attempts the upload (recorded as a call),
re-raising any failure (the `except GoogleAPIError` clause only logs and
re-raises), and on success returns the gs:// URI and public URL. -/
def upload_to_gcs (env : Env) (w : World) (bucket : String) (blob : String) :
    Except PyExc (String × String) × List ExtCall :=
  if !env.gcs_client then
    (.error (.connectionError "GCS client is not initialized"), [])
  else
    match w.uploadErr blob with
    | some e => (.error e, [.uploadBlob bucket blob false])
    | none =>
      (.ok ("gs://" ++ bucket ++ "/" ++ blob,
            "https://storage.googleapis.com/" ++ bucket ++ "/" ++ blob),
       [.uploadBlob bucket blob true])

/-- `num_images` parsing and clamping (app.py lines 124-131):
`int(request.json.get('num_images', 4))`, with `ValueError`/`TypeError`
falling back to 4, and any integer outside [1,4] replaced by 4. -/
def effectiveNumImages (v : Option JVal) : Nat :=
  match pyInt (v.getD (.jint 4)) with
  | .error _ => 4
  | .ok n => if 1 ≤ n ∧ n ≤ 4 then n.toNat else 4

/-- Extraction of the generated image bytes from a Gemini response
(app.py lines 174-186): empty candidates raise `ValueError`; the first part
whose `inline_data` is present with an image mime type supplies the bytes;
a missing or empty result raises `ValueError`. -/
def extractImageBytes (r : GenResponse) (i : Nat) : Except PyExc (List Nat) :=
  if r.candidates.isEmpty then
    .error (.valueError ("Gemini image generation returned no candidates for image " ++ toString (i + 1)))
  else
    match (r.candidates.headD ⟨[]⟩).parts.findSome? (fun p =>
        match p.inline_data with
        | some d => if pyStartsWith d.mime_type "image/" then some d.data else none
        | none => none) with
    | some bs =>
      if bs.isEmpty then
        .error (.valueError ("Gemini did not return an image for image " ++ toString (i + 1)))
      else .ok bs
    | none =>
      .error (.valueError ("Gemini did not return an image for image " ++ toString (i + 1)))

/-- The generation loop body of app.py lines 166-194: `remaining` counts
iterations left of `for i in range(num_images)`, `i` is the current index. -/
def genLoop (env : Env) (w : World) (folder : String) :
    Nat → Nat → List ImageRec → List ExtCall →
    Except PyExc (List ImageRec) × List ExtCall
  | 0, _i, acc, calls => (.ok acc, calls)
  | remaining + 1, i, acc, calls =>
    let calls := calls ++ [.genContentCall i]
    match w.genContent i with
    | .error e => (.error e, calls)
    | .ok r =>
      match extractImageBytes r i with
      | .error e => (.error e, calls)
      | .ok _bytes =>
        let blob := folder ++ "/images/generated-image-" ++ toString (i + 1) ++ ".png"
        let up := upload_to_gcs env w env.GCS_BUCKET_NAME blob
        match up.1 with
        | .error e => (.error e, calls ++ up.2)
        | .ok res =>
          genLoop env w folder remaining (i + 1)
            (acc ++ [⟨res.2, res.1⟩]) (calls ++ up.2)

/-- The `try` block of app.py lines 147-157: upload the original sketch,
then the prompt; any exception is swallowed (`pass`), and an exception in
the first upload skips the second.  Only the call trace is observable. -/
def origUploadCalls (env : Env) (w : World) (sketch_blob prompt_blob : String) :
    List ExtCall :=
  match upload_to_gcs env w env.GCS_BUCKET_NAME sketch_blob with
  | (.error _, c1) => c1
  | (.ok _, c1) => c1 ++ (upload_to_gcs env w env.GCS_BUCKET_NAME prompt_blob).2

/-- Status and message of the `except` clauses of `generate_images`
(app.py lines 199-207): `GoogleAPIError` and `ValueError` map to
"Failed to generate images: ...", everything else to
"Unexpected error in image generation: ..."; the status is always 500. -/
def imagesCatch (e : PyExc) : Nat × String :=
  if e.isGoogleAPIError then (500, "Failed to generate images: " ++ e.msg)
  else if e.isValueError then (500, "Failed to generate images: " ++ e.msg)
  else (500, "Unexpected error in image generation: " ++ e.msg)

/-- The `/generate-images` handler (app.py lines 110-207), as
(result, external calls). -/
def generate_imagesRC (env : Env) (req : ReqJson) (w : World) :
    HttpResult × List ExtCall :=
  if !(env.gemini_image_client && env.gcs_client) then
    (.resp 500 (.errMsg "Server-side client initialization failed"), [])
  else if jsonFalsy req || (jlookup (req.getD []) "image_data").isNone then
    (.resp 400 (.errMsg "Missing image_data in request"), [])
  else
    let kvs := req.getD []
    let base64_image_data := (jlookup kvs "image_data").getD .jnull
    match pyStrip ((jlookup kvs "prompt").getD (.jstr "")) with
    | .error e => (.uncaught e, [])
    | .ok _user_prompt =>
      let num_images := effectiveNumImages (jlookup kvs "num_images")
      let job_id := w.uuid
      let job_folder_path := "generations/" ++ w.timestamp ++ "_" ++ job_id.take 8
      match decodeImageData base64_image_data with
      | .error e => (.uncaught e, [])
      | .ok _image_bytes =>
        -- try block of lines 147-157: both uploads, any failure swallowed;
        -- a failure of the first upload skips the second.
        let sketch_blob := job_folder_path ++ "/sketches/user-sketch.png"
        let prompt_blob := job_folder_path ++ "/prompts/user-prompt.txt"
        let origCalls := origUploadCalls env w sketch_blob prompt_blob
        -- try block of lines 161-197.
        match w.pilOpenErr with
        | some e =>
          (.resp (imagesCatch e).1 (.errMsg (imagesCatch e).2), origCalls)
        | none =>
          match genLoop env w job_folder_path num_images 0 [] [] with
          | (.ok images, gcalls) =>
            (.resp 200 (.imagesResp job_id images), origCalls ++ gcalls)
          | (.error e, gcalls) =>
            (.resp (imagesCatch e).1 (.errMsg (imagesCatch e).2), origCalls ++ gcalls)

/-- `/generate-images` with the module state threaded through: the handler
body contains no assignment to any module-level name, so the final
environment is the initial one. -/
def generate_images (env : Env) (req : ReqJson) (w : World) : HandlerOut :=
  let rc := generate_imagesRC env req w
  ⟨rc.1, rc.2, env⟩

/-- The poll loop of app.py lines 248-256: `k` counts completed sleeps
(each `time.sleep(15)` advances the clock 15 s), so the elapsed time at the
top of an iteration is `15 * k`; the loop exits with the index of the first
poll that reports done, or raises `TimeoutError` once more than 300 s have
elapsed with the operation still pending. -/
def pollLoopF (done : Nat → Bool) : Nat → Nat → Except PyExc Nat
  | fuel + 1, k =>
    if done k then .ok k
    else if 15 * k > 300 then .error (.timeoutError "Video generation timed out")
    else pollLoopF done fuel (k + 1)
  | 0, _k => .error (.timeoutError "Video generation timed out")

def pollLoop (done : Nat → Bool) (k : Nat) : Except PyExc Nat :=
  pollLoopF done 22 k

/-- Status and message of the `except` clauses of `generate_video`
(app.py lines 273-284). -/
def videoCatch (e : PyExc) : Nat × String :=
  if e.isGoogleAPIError then (500, "Failed to generate video: " ++ e.msg)
  else if e.isTimeoutError then (504, "Failed to generate video: " ++ e.msg)
  else if e.isValueError then (500, "Failed to generate video: " ++ e.msg)
  else (500, "Unexpected error in video generation: " ++ e.msg)

/-- `s.replace(pat, rep)` on character lists, Python semantics for a
nonempty pattern: leftmost non-overlapping occurrences are replaced.
(The handler only calls this with the nonempty pattern "gs://<bucket>/";
Python's empty-pattern behaviour is not modelled.) -/
def replListF (pat rep : List Char) : Nat → List Char → List Char
  | _, [] => []
  | 0, l => l
  | fuel + 1, c :: rest =>
    if pat.isPrefixOf (c :: rest) ∧ pat ≠ [] then
      rep ++ replListF pat rep fuel (rest.drop (pat.length - 1))
    else
      c :: replListF pat rep fuel rest

def pyReplace (s pat rep : String) : String :=
  String.mk (replListF pat.toList rep.toList s.toList.length s.toList)

/-- The `/generate-video` handler (app.py lines 209-284), as
(result, external calls). -/
def generate_videoRC (env : Env) (req : ReqJson) (w : World) :
    HttpResult × List ExtCall :=
  if !(env.veo_video_client && env.gcs_client) then
    (.resp 500 (.errMsg "Server-side client initialization failed"), [])
  else if jsonFalsy req
      || (jlookup (req.getD []) "selected_image_gcs_uri").isNone
      || (jlookup (req.getD []) "job_id").isNone then
    (.resp 400 (.errMsg "Missing selected_image_gcs_uri or job_id in request"), [])
  else
    let kvs := req.getD []
    match pyStrip ((jlookup kvs "prompt").getD (.jstr "")) with
    | .error e => (.uncaught e, [])
    | .ok _user_prompt =>
      match pySlice8 ((jlookup kvs "job_id").getD .jnull) with
      | .error e => (.uncaught e, [])
      | .ok job8 =>
        -- Line 224: the job folder is rebuilt from the CURRENT time.
        let job_folder_path := "generations/" ++ w.timestamp ++ "_" ++ job8
        -- try block of lines 227-271.
        let output_gcs_dir :=
          "gs://" ++ env.GCS_BUCKET_NAME ++ "/" ++ job_folder_path ++ "/videos/"
        let calls := [ExtCall.genVideosCall output_gcs_dir]
        match w.genVideos with
        | .error e =>
          (.resp (videoCatch e).1 (.errMsg (videoCatch e).2), calls)
        | .ok _ =>
          match pollLoop w.opDone 0 with
          | .error e =>
            (.resp (videoCatch e).1 (.errMsg (videoCatch e).2), calls)
          | .ok k =>
            if !(w.opResponse k) || (w.opVideos k).isEmpty then
              (.resp (videoCatch (.valueError "Veo operation completed but returned no video")).1
                 (.errMsg (videoCatch (.valueError "Veo operation completed but returned no video")).2),
               calls)
            else
              let video_gcs_uri := (w.opVideos k).headD ""
              let video_blob_name :=
                pyReplace video_gcs_uri ("gs://" ++ env.GCS_BUCKET_NAME ++ "/") ""
              let public_video_url :=
                "https://storage.googleapis.com/" ++ env.GCS_BUCKET_NAME ++ "/" ++ video_blob_name
              (.resp 200 (.videoResp public_video_url), calls)

/-- `/generate-video` with the module state threaded through. -/
def generate_video (env : Env) (req : ReqJson) (w : World) : HandlerOut :=
  let rc := generate_videoRC env req w
  ⟨rc.1, rc.2, env⟩

/-! Concrete fixtures used by witnesses and counterexamples. -/

def envOk : Env :=
  { PROJECT_ID := "proj", GCS_BUCKET_NAME := "bkt",
    gemini_image_client := true, veo_video_client := true, gcs_client := true }

/-- A Gemini response carrying one image part. -/
def goodResp : GenResponse :=
  GenResponse.mk [Candidate.mk [GenPart.mk (some (InlineData.mk "image/png" [1, 2, 3]))]]

/-- A run in which every external call succeeds; the video operation is done
on the first poll. -/
def wOk : World :=
  { timestamp := "2026-01-01_10-00-00"
    uuid := "abcd1234-0000-4000-8000-000000000000"
    uploadErr := fun _ => none
    pilOpenErr := none
    genContent := fun _ => .ok goodResp
    genVideos := .ok ()
    opDone := fun k => k ≥ 1
    opResponse := fun _ => true
    opVideos := fun _ => ["gs://bkt/generations/2026-01-01_10-00-00_abcd1234/videos/video.mp4"] }

/-- The same run as seen by a later `/generate-video` request: the clock has
moved on five minutes. -/
def wVid : World := { wOk with timestamp := "2026-01-01_10-05-00" }

/-- A run whose video operation never reports done. -/
def wTimeout : World := { wOk with opDone := fun _ => false }

/-- A run in which the first Gemini call raises a `GoogleAPIError` and the
`generate_videos` call raises one too. -/
def wGenErr : World :=
  { wOk with genContent := fun _ => .error (.googleAPIError "quota exceeded")
             genVideos := .error (.googleAPIError "quota exceeded") }

/-- A run in which only the upload of the original sketch fails. -/
def wSketchFail : World :=
  { wOk with uploadErr := fun b =>
      if b = "generations/2026-01-01_10-00-00_abcd1234/sketches/user-sketch.png"
      then some (.googleAPIError "storage unavailable") else none }

def reqImgC : ReqJson :=
  some [("image_data", .jstr "aGVsbG8="), ("prompt", .jstr " hi "),
        ("num_images", .jint 1)]

def reqVidC : ReqJson :=
  some [("selected_image_gcs_uri", .jstr "gs://bkt/generations/2026-01-01_10-00-00_abcd1234/images/generated-image-1.png"),
        ("job_id", .jstr "abcd1234-0000-4000-8000-000000000000")]

/-- A `/generate-video` request whose `job_id` is a JSON number. -/
def reqVidBadJob : ReqJson :=
  some [("selected_image_gcs_uri", .jstr "gs://bkt/generations/2026-01-01_10-00-00_abcd1234/images/generated-image-1.png"),
        ("job_id", .jint 7)]

/-! Helper lemmas. -/

theorem jlookup_isEmpty_false {kvs : List (String × JVal)} {k : String} {v : JVal}
    (h : jlookup kvs k = some v) : kvs.isEmpty = false := by
  cases kvs with
  | nil => simp [jlookup] at h
  | cons p rest => rfl

theorem imagesCatch_form (e : PyExc) :
    (imagesCatch e).1 = 500 ∧ ∃ p, (imagesCatch e).2 = p ++ e.msg := by
  cases e <;> simp [imagesCatch, PyExc.isGoogleAPIError, PyExc.isValueError, PyExc.msg] <;>
    exact ⟨_, rfl⟩

theorem videoCatch_form (e : PyExc) :
    (videoCatch e).1 = (if e.isTimeoutError then 504 else 500) ∧
    ∃ p, (videoCatch e).2 = p ++ e.msg := by
  cases e <;>
    simp [videoCatch, PyExc.isGoogleAPIError, PyExc.isValueError, PyExc.isTimeoutError,
      PyExc.msg] <;>
    exact ⟨_, rfl⟩

/-- If the operation never reports done within the loop's reach, the poll
loop raises the timeout (at any fuel). -/
theorem pollLoopF_timeout (done : Nat → Bool) (hall : ∀ j, j ≤ 21 → done j = false) :
    ∀ fuel k, k ≤ 21 →
      pollLoopF done fuel k = .error (.timeoutError "Video generation timed out") := by
  intro fuel
  induction fuel with
  | zero => intro k _; rfl
  | succ fuel ih =>
    intro k hk
    show (if done k then _ else _) = _
    simp only [hall k hk, Bool.false_eq_true, if_false]
    by_cases h15 : 15 * k > 300
    · simp [h15]
    · simp only [h15, if_false]
      exact ih (k + 1) (by omega)

theorem pollLoop_timeout (done : Nat → Bool) (hall : ∀ j, j ≤ 21 → done j = false) :
    pollLoop done 0 = .error (.timeoutError "Video generation timed out") :=
  pollLoopF_timeout done hall 22 0 (by omega)

/-- A successful exit of the poll loop names a poll that reported done,
within the loop's reach. -/
theorem pollLoopF_ok (done : Nat → Bool) :
    ∀ fuel k j, k ≤ 21 → pollLoopF done fuel k = .ok j →
      done j = true ∧ j ≤ 21 := by
  intro fuel
  induction fuel with
  | zero => intro k j _ h; exact absurd h (by simp [pollLoopF])
  | succ fuel ih =>
    intro k j hk h
    rw [pollLoopF] at h
    by_cases hd : done k
    · simp [hd] at h
      exact ⟨h ▸ hd, h ▸ hk⟩
    · simp only [hd, Bool.false_eq_true, if_false] at h
      by_cases h15 : 15 * k > 300
      · simp [h15] at h
      · simp only [h15, if_false] at h
        exact ih (k + 1) j (by omega) h

theorem pollLoop_ok (done : Nat → Bool) (j : Nat) (h : pollLoop done 0 = .ok j) :
    done j = true ∧ j ≤ 21 :=
  pollLoopF_ok done 22 0 j (by omega) h

/-- Either some poll within reach reports done and the loop returns it, or
the loop raises the timeout. -/
theorem pollLoopF_dichotomy (done : Nat → Bool) :
    ∀ fuel k, k ≤ 21 →
      (∃ j, j ≤ 21 ∧ pollLoopF done fuel k = .ok j ∧ done j = true) ∨
      pollLoopF done fuel k = .error (.timeoutError "Video generation timed out") := by
  intro fuel
  induction fuel with
  | zero => intro k _; exact .inr rfl
  | succ fuel ih =>
    intro k hk
    by_cases hd : done k
    · exact .inl ⟨k, hk, by rw [pollLoopF]; simp [hd], hd⟩
    · by_cases h15 : 15 * k > 300
      · refine .inr ?_
        rw [pollLoopF]
        simp [hd, h15]
      · have hstep : pollLoopF done (fuel + 1) k = pollLoopF done fuel (k + 1) := by
          rw [pollLoopF]
          simp [hd, h15]
        rcases ih (k + 1) (by omega) with ⟨j, hj, he, hdj⟩ | he
        · exact .inl ⟨j, hj, hstep ▸ he, hdj⟩
        · exact .inr (hstep ▸ he)

theorem pollLoop_dichotomy (done : Nat → Bool) :
    (∃ j, j ≤ 21 ∧ pollLoop done 0 = .ok j ∧ done j = true) ∨
    pollLoop done 0 = .error (.timeoutError "Video generation timed out") :=
  pollLoopF_dichotomy done 22 0 (by omega)

/-- C7: handling any request on either endpoint leaves the module-level
state (model identifiers, project, region and bucket configuration, and the
three initialized clients) unchanged: the handlers contain no assignment to
any module-level name. -/
theorem C7_stateless (env : Env) (req : ReqJson) (w : World) :
    (generate_images env req w).env = env ∧ (generate_video env req w).env = env :=
  ⟨rfl, rfl⟩

/-- C1 counterexample: a `/generate-video` request whose `job_id` field is
the JSON number 7 makes line 225 (`job_id[:8]`) raise a `TypeError` before
the handler's `try` block is entered, and that exception escapes the
handler uncaught instead of being mapped to a JSON 500/504 response. -/
theorem C1_counterexample :
    (generate_video envOk reqVidBadJob wOk).result =
      .uncaught (.typeError "int object is not subscriptable") := by
  rfl

/-- C4: within one `/generate-images` request all artifacts (sketch, prompt,
generated images) do share one generated job folder; but a subsequent
`/generate-video` request with the same `job_id` rebuilds the folder from
`datetime.now()` (app.py line 224), so five minutes later its video output
path lies under a different folder than the one the images request created,
even though the comment on line 223 says the job folder path is
reconstructed.  Evaluated here at explicit inputs. -/
theorem C4_video_folder_differs :
    (generate_images envOk reqImgC wOk).calls =
      [.uploadBlob "bkt" "generations/2026-01-01_10-00-00_abcd1234/sketches/user-sketch.png" true,
       .uploadBlob "bkt" "generations/2026-01-01_10-00-00_abcd1234/prompts/user-prompt.txt" true,
       .genContentCall 0,
       .uploadBlob "bkt" "generations/2026-01-01_10-00-00_abcd1234/images/generated-image-1.png" true]
  ∧ (generate_images envOk reqImgC wOk).result =
      .resp 200 (.imagesResp "abcd1234-0000-4000-8000-000000000000"
        [⟨"https://storage.googleapis.com/bkt/generations/2026-01-01_10-00-00_abcd1234/images/generated-image-1.png",
          "gs://bkt/generations/2026-01-01_10-00-00_abcd1234/images/generated-image-1.png"⟩])
  ∧ (generate_video envOk reqVidC wVid).calls =
      [.genVideosCall "gs://bkt/generations/2026-01-01_10-05-00_abcd1234/videos/"]
  ∧ (pyStartsWith "gs://bkt/generations/2026-01-01_10-05-00_abcd1234/videos/"
       "gs://bkt/generations/2026-01-01_10-00-00_abcd1234/") = false := by
  refine ⟨?_, ?_, ?_, ?_⟩ <;> decide

theorem effectiveNumImages_bounds (v : Option JVal) :
    1 ≤ effectiveNumImages v ∧ effectiveNumImages v ≤ 4 := by
  unfold effectiveNumImages
  split
  · omega
  · split
    · rename_i n _ hn
      omega
    · omega

theorem genLoop_head_error (env : Env) (w : World) (folder : String)
    (n i : Nat) (acc : List ImageRec) (calls : List ExtCall) (e : PyExc)
    (hg : w.genContent i = .error e) :
    genLoop env w folder (n + 1) i acc calls = (.error e, calls ++ [.genContentCall i]) := by
  rw [genLoop]
  simp [hg]

/-- C2: with the clients initialized, a `/generate-images` request whose
body is absent or lacks `image_data` gets a 400 JSON error, a
`/generate-video` request whose body is absent or lacks
`selected_image_gcs_uri` or `job_id` gets a 400 JSON error, and in both
cases the request performs no external call. -/
theorem C2_missing_fields_400 (env : Env) (req : ReqJson) (w : World)
    (hgem : env.gemini_image_client = true) (hveo : env.veo_video_client = true)
    (hgcs : env.gcs_client = true) :
    ((req = none ∨ jlookup (req.getD []) "image_data" = none) →
      generate_images env req w =
        ⟨.resp 400 (.errMsg "Missing image_data in request"), [], env⟩)
  ∧ ((req = none ∨ jlookup (req.getD []) "selected_image_gcs_uri" = none ∨
        jlookup (req.getD []) "job_id" = none) →
      generate_video env req w =
        ⟨.resp 400 (.errMsg "Missing selected_image_gcs_uri or job_id in request"), [], env⟩) := by
  constructor
  · rintro (rfl | hmiss)
    · simp [generate_images, generate_imagesRC, hgem, hgcs, jsonFalsy]
    · simp [generate_images, generate_imagesRC, hgem, hgcs, hmiss]
  · rintro (rfl | hmiss | hmiss)
    · simp [generate_video, generate_videoRC, hveo, hgcs, jsonFalsy]
    · simp [generate_video, generate_videoRC, hveo, hgcs, hmiss]
    · simp [generate_video, generate_videoRC, hveo, hgcs, hmiss]

theorem C2_missing_fields_400_witness :
    envOk.gemini_image_client = true ∧ envOk.veo_video_client = true ∧
    envOk.gcs_client = true ∧
    (some [("prompt", JVal.jstr "x")] = (none : ReqJson) ∨
      jlookup ((some [("prompt", JVal.jstr "x")] : ReqJson).getD []) "image_data" = none) ∧
    generate_images envOk (some [("prompt", JVal.jstr "x")]) wOk =
      ⟨.resp 400 (.errMsg "Missing image_data in request"), [], envOk⟩ ∧
    generate_video envOk none wOk =
      ⟨.resp 400 (.errMsg "Missing selected_image_gcs_uri or job_id in request"), [], envOk⟩ := by
  refine ⟨rfl, rfl, rfl, .inr (by decide), ?_, ?_⟩
  · exact (C2_missing_fields_400 envOk (some [("prompt", JVal.jstr "x")]) wOk rfl rfl rfl).1
      (.inr (by decide))
  · exact (C2_missing_fields_400 envOk none wOk rfl rfl rfl).2 (.inl rfl)

/-- C3: with a valid request and an operation that never reports done
within the 300-second window, `/generate-video` raises the timeout and
returns a 504 JSON error. -/
theorem C3_timeout_504 (env : Env) (kvs : List (String × JVal)) (w : World)
    (sel jid : String)
    (hveo : env.veo_video_client = true) (hgcs : env.gcs_client = true)
    (hsel : jlookup kvs "selected_image_gcs_uri" = some (.jstr sel))
    (hjid : jlookup kvs "job_id" = some (.jstr jid))
    (hpr : jlookup kvs "prompt" = none)
    (hgv : w.genVideos = .ok ())
    (hnd : ∀ j, j ≤ 21 → w.opDone j = false) :
    (generate_video env (some kvs) w).result =
      .resp 504 (.errMsg ("Failed to generate video: " ++ "Video generation timed out")) := by
  have hne : kvs.isEmpty = false := jlookup_isEmpty_false hsel
  simp [generate_video, generate_videoRC, hveo, hgcs, jsonFalsy, hne, hsel, hjid, hpr,
    pyStrip, pySlice8, hgv, pollLoop_timeout w.opDone hnd, videoCatch,
    PyExc.isGoogleAPIError, PyExc.isTimeoutError, PyExc.msg]

theorem C3_timeout_504_witness :
    (∀ j, j ≤ 21 → wTimeout.opDone j = false) ∧
    (generate_video envOk reqVidC wTimeout).result =
      .resp 504 (.errMsg ("Failed to generate video: " ++ "Video generation timed out")) := by
  refine ⟨fun j _ => rfl, ?_⟩
  exact C3_timeout_504 envOk
    [("selected_image_gcs_uri", .jstr "gs://bkt/generations/2026-01-01_10-00-00_abcd1234/images/generated-image-1.png"),
     ("job_id", .jstr "abcd1234-0000-4000-8000-000000000000")]
    wTimeout "gs://bkt/generations/2026-01-01_10-00-00_abcd1234/images/generated-image-1.png"
    "abcd1234-0000-4000-8000-000000000000" rfl rfl (by decide) (by decide) (by decide) rfl
    (fun j _ => rfl)

/-- C6: the wait for the video operation is the single poll loop with
15-second interval and 300-second timeout, and it always terminates: for
every sequence of poll results it either returns a poll that reported done
or raises the timeout error; and a 200 response from `/generate-video`
can only arise after some poll within the loop's reach reported done. -/
theorem C6_poll_loop_terminates :
    (∀ done : Nat → Bool,
      (∃ j, j ≤ 21 ∧ pollLoop done 0 = .ok j ∧ done j = true) ∨
      pollLoop done 0 = .error (.timeoutError "Video generation timed out"))
  ∧ (∀ env req w url,
      (generate_video env req w).result = .resp 200 (.videoResp url) →
      ∃ j, j ≤ 21 ∧ w.opDone j = true) := by
  constructor
  · exact pollLoop_dichotomy
  · intro env req w url h
    simp only [generate_video, generate_videoRC] at h
    split at h
    · simp at h
    · split at h
      · simp at h
      · split at h
        · simp at h
        · split at h
          · simp at h
          · split at h
            · simp at h
            · split at h
              · simp at h
              · rename_i k heq
                split at h
                · simp at h
                · exact ⟨k, (pollLoop_ok w.opDone k heq).2, (pollLoop_ok w.opDone k heq).1⟩

theorem C6_poll_loop_terminates_witness :
    (generate_video envOk reqVidC wOk).result =
      .resp 200 (.videoResp "https://storage.googleapis.com/bkt/generations/2026-01-01_10-00-00_abcd1234/videos/video.mp4") ∧
    ∃ j, j ≤ 21 ∧ wOk.opDone j = true := by
  constructor
  · decide
  · exact C6_poll_loop_terminates.2 envOk reqVidC wOk
      "https://storage.googleapis.com/bkt/generations/2026-01-01_10-00-00_abcd1234/videos/video.mp4"
      (by decide)

/-- C1 (amended): an exception raised inside the try-wrapped generation or
polling phase is caught and mapped to a JSON error response whose status is
500 (504 for a timeout in `/generate-video`) and whose message contains the
underlying exception's message; but an exception raised earlier, while the
request fields are read and decoded before the `try` blocks (a non-string
`prompt` or `job_id`, malformed base64 `image_data`), escapes the handler
uncaught, as `C1_counterexample` shows. -/
theorem C1_amended_catch :
    (∀ env kvs w img bs e,
      env.gemini_image_client = true → env.gcs_client = true →
      jlookup kvs "image_data" = some (.jstr img) →
      (∃ up, pyStrip ((jlookup kvs "prompt").getD (.jstr "")) = .ok up) →
      decodeImageData (.jstr img) = .ok bs →
      w.pilOpenErr = none →
      w.genContent 0 = .error e →
      ∃ m p, (generate_images env (some kvs) w).result = .resp 500 (.errMsg m) ∧
        m = p ++ e.msg)
  ∧ (∀ env kvs w e,
      env.veo_video_client = true → env.gcs_client = true →
      (∃ sv, jlookup kvs "selected_image_gcs_uri" = some sv) →
      (∃ js, jlookup kvs "job_id" = some (.jstr js)) →
      (∃ up, pyStrip ((jlookup kvs "prompt").getD (.jstr "")) = .ok up) →
      w.genVideos = .error e →
      ∃ st m p, (generate_video env (some kvs) w).result = .resp st (.errMsg m) ∧
        st = (if e.isTimeoutError then 504 else 500) ∧ m = p ++ e.msg) := by
  constructor
  · intro env kvs w img bs e hgem hgcs himg hprE hdec hpil hgen
    obtain ⟨up, hpr⟩ := hprE
    have hne : kvs.isEmpty = false := jlookup_isEmpty_false himg
    obtain ⟨hb1, hb2⟩ := effectiveNumImages_bounds (jlookup kvs "num_images")
    obtain ⟨n, hn⟩ : ∃ n, effectiveNumImages (jlookup kvs "num_images") = n + 1 :=
      ⟨effectiveNumImages (jlookup kvs "num_images") - 1, by omega⟩
    obtain ⟨h500, p, hp⟩ := imagesCatch_form e
    refine ⟨(imagesCatch e).2, p, ?_, hp⟩
    simp [generate_images, generate_imagesRC, hgem, hgcs, jsonFalsy, hne, himg, hpr,
      hdec, hpil, hn,
      genLoop_head_error env w ("generations/" ++ w.timestamp ++ "_" ++ w.uuid.take 8)
        n 0 [] [] e hgen, h500]
  · intro env kvs w e hveo hgcs hselE hjidE hprE hgv
    obtain ⟨up, hpr⟩ := hprE
    obtain ⟨sv, hsel⟩ := hselE
    obtain ⟨js, hjid⟩ := hjidE
    have hne : kvs.isEmpty = false := jlookup_isEmpty_false hsel
    obtain ⟨hst, p, hp⟩ := videoCatch_form e
    refine ⟨(videoCatch e).1, (videoCatch e).2, p, ?_, hst, hp⟩
    simp [generate_video, generate_videoRC, hveo, hgcs, jsonFalsy, hne, hsel, hjid, hpr,
      pySlice8, hgv]

theorem C1_amended_catch_witness :
    wGenErr.genContent 0 = .error (.googleAPIError "quota exceeded") ∧
    wGenErr.genVideos = .error (.googleAPIError "quota exceeded") ∧
    (∃ m p, (generate_images envOk reqImgC wGenErr).result = .resp 500 (.errMsg m) ∧
      m = p ++ (PyExc.googleAPIError "quota exceeded").msg) ∧
    (∃ st m p, (generate_video envOk reqVidC wGenErr).result = .resp st (.errMsg m) ∧
      st = (if (PyExc.googleAPIError "quota exceeded").isTimeoutError then 504 else 500) ∧
      m = p ++ (PyExc.googleAPIError "quota exceeded").msg) := by
  refine ⟨rfl, rfl, ?_, ?_⟩
  · exact C1_amended_catch.1 envOk
      [("image_data", .jstr "aGVsbG8="), ("prompt", .jstr " hi "), ("num_images", .jint 1)]
      wGenErr "aGVsbG8=" [104, 101, 108, 108, 111] (.googleAPIError "quota exceeded")
      rfl rfl (by decide) ⟨"hi", by decide⟩ (by decide) rfl rfl
  · exact C1_amended_catch.2 envOk
      [("selected_image_gcs_uri", .jstr "gs://bkt/generations/2026-01-01_10-00-00_abcd1234/images/generated-image-1.png"),
       ("job_id", .jstr "abcd1234-0000-4000-8000-000000000000")]
      wGenErr (.googleAPIError "quota exceeded") rfl rfl
      ⟨.jstr "gs://bkt/generations/2026-01-01_10-00-00_abcd1234/images/generated-image-1.png", by decide⟩
      ⟨"abcd1234-0000-4000-8000-000000000000", by decide⟩ ⟨"", by decide⟩ rfl

theorem mk_data (s : String) : String.mk s.data = s := rfl

theorem dropWhile_append_comma (l r : List Char) (h : ∀ c ∈ l, (c == ',') = false) :
    (l ++ ',' :: r).dropWhile (fun c => c != ',') = ',' :: r := by
  induction l with
  | nil => simp [List.dropWhile]
  | cons c cs ih =>
    have hc := h c (by simp)
    simp only [List.cons_append, List.dropWhile_cons]
    rw [if_pos (by simpa using hc)]
    exact ih (fun d hd => h d (by simp [hd]))

theorem toList_append_comma (pre post : String) :
    (pre ++ "," ++ post).toList = pre.toList ++ ',' :: post.toList := by
  show (pre ++ "," ++ post).data = pre.data ++ ',' :: post.data
  simp [String.data_append]

theorem hasComma_all {s : String} (h : hasComma s = false) :
    ∀ c ∈ s.toList, (c == ',') = false := by
  intro c hc
  have := List.any_eq_false.mp h c hc
  simpa using this

theorem afterFirstComma_append (pre post : String) (h : hasComma pre = false) :
    afterFirstComma (pre ++ "," ++ post) = post := by
  unfold afterFirstComma
  rw [toList_append_comma, dropWhile_append_comma _ _ (hasComma_all h)]
  exact mk_data post

theorem hasComma_append_comma (pre post : String) :
    hasComma (pre ++ "," ++ post) = true := by
  unfold hasComma
  rw [toList_append_comma]
  simp

/-- C10: the `image_data` field may be a raw base64 string or a data URL:
a string containing a comma is decoded from the portion after its first
comma only, a comma-free string is decoded whole, and the two forms with
the same payload decode to the same bytes. -/
theorem C10_data_url_split :
    (∀ s, hasComma s = false →
      extractB64 s = s ∧ decodeImageData (.jstr s) = b64decode s)
  ∧ (∀ pre post, hasComma pre = false →
      extractB64 (pre ++ "," ++ post) = post ∧
      decodeImageData (.jstr (pre ++ "," ++ post)) = b64decode post)
  ∧ (∀ pre post, hasComma pre = false → hasComma post = false →
      decodeImageData (.jstr (pre ++ "," ++ post)) = decodeImageData (.jstr post)) := by
  have h1 : ∀ s, hasComma s = false → extractB64 s = s := by
    intro s h
    simp [extractB64, h]
  have h2 : ∀ pre post, hasComma pre = false → extractB64 (pre ++ "," ++ post) = post := by
    intro pre post h
    simp [extractB64, hasComma_append_comma, afterFirstComma_append pre post h]
  refine ⟨fun s h => ⟨h1 s h, ?_⟩, fun pre post h => ⟨h2 pre post h, ?_⟩, fun pre post h hp => ?_⟩
  · simp [decodeImageData, h1 s h]
  · simp [decodeImageData, h2 pre post h]
  · simp [decodeImageData, h2 pre post h, h1 post hp]

theorem C10_data_url_split_witness :
    hasComma "data:image/png;base64" = false ∧ hasComma "aGVsbG8=" = false ∧
    extractB64 ("data:image/png;base64" ++ "," ++ "aGVsbG8=") = "aGVsbG8=" ∧
    decodeImageData (.jstr ("data:image/png;base64" ++ "," ++ "aGVsbG8=")) =
      decodeImageData (.jstr "aGVsbG8=") := by
  refine ⟨by decide, by decide, ?_, ?_⟩
  · exact (C10_data_url_split.2.1 "data:image/png;base64" "aGVsbG8=" (by decide)).1
  · exact C10_data_url_split.2.2 "data:image/png;base64" "aGVsbG8=" (by decide) (by decide)

/-- With the GCS client initialized, every generation call returning an
image and every upload of a generated image succeeding, the loop returns
one image record per iteration. -/
theorem genLoop_ok_length (env : Env) (w : World) (folder : String)
    (hgcs : env.gcs_client = true)
    (hgen : ∀ j, ∃ r bs, w.genContent j = .ok r ∧ extractImageBytes r j = .ok bs)
    (hup : ∀ j, w.uploadErr
      (folder ++ "/images/generated-image-" ++ toString (j + 1) ++ ".png") = none) :
    ∀ fuel i acc calls, ∃ images gcalls,
      genLoop env w folder fuel i acc calls = (.ok images, gcalls) ∧
      images.length = acc.length + fuel := by
  intro fuel
  induction fuel with
  | zero => intro i acc calls; exact ⟨acc, calls, rfl, rfl⟩
  | succ fuel ih =>
    intro i acc calls
    obtain ⟨r, bs, hr, hbs⟩ := hgen i
    obtain ⟨images, gcalls, heq, hlen⟩ := ih (i + 1)
      (acc ++ [⟨"https://storage.googleapis.com/" ++ env.GCS_BUCKET_NAME ++ "/" ++
          (folder ++ "/images/generated-image-" ++ toString (i + 1) ++ ".png"),
        "gs://" ++ env.GCS_BUCKET_NAME ++ "/" ++
          (folder ++ "/images/generated-image-" ++ toString (i + 1) ++ ".png")⟩])
      ((calls ++ [.genContentCall i]) ++
        [.uploadBlob env.GCS_BUCKET_NAME
          (folder ++ "/images/generated-image-" ++ toString (i + 1) ++ ".png") true])
    refine ⟨images, gcalls, ?_, by simp at hlen; omega⟩
    rw [genLoop]
    simp only [hr, hbs, upload_to_gcs, hgcs, Bool.not_true, Bool.false_eq_true, if_false,
      hup i]
    exact heq

/-- C8: the number of generated images is always between 1 and 4: an
integer `num_images` in [1,4] (as a JSON number or numeric string) is
honoured exactly, an out-of-range integer, an unconvertible value or a
missing field falls back to 4 without an error response, and on a fully
successful run the handler returns exactly that many images. -/
theorem C8_num_images :
    (effectiveNumImages none = 4)
  ∧ (∀ v n, pyInt v = .ok n → 1 ≤ n → n ≤ 4 → effectiveNumImages (some v) = n.toNat)
  ∧ (∀ v n, pyInt v = .ok n → (n < 1 ∨ 4 < n) → effectiveNumImages (some v) = 4)
  ∧ (∀ v e, pyInt v = .error e → effectiveNumImages (some v) = 4)
  ∧ (∀ v, 1 ≤ effectiveNumImages v ∧ effectiveNumImages v ≤ 4)
  ∧ (∀ env kvs w img bs up,
      env.gemini_image_client = true → env.gcs_client = true →
      jlookup kvs "image_data" = some (.jstr img) →
      pyStrip ((jlookup kvs "prompt").getD (.jstr "")) = .ok up →
      decodeImageData (.jstr img) = .ok bs →
      w.pilOpenErr = none →
      (∀ j, ∃ r bs2, w.genContent j = .ok r ∧ extractImageBytes r j = .ok bs2) →
      (∀ b, w.uploadErr b = none) →
      ∃ images, (generate_images env (some kvs) w).result =
          .resp 200 (.imagesResp w.uuid images) ∧
        images.length = effectiveNumImages (jlookup kvs "num_images")) := by
  refine ⟨rfl, ?_, ?_, ?_, effectiveNumImages_bounds, ?_⟩
  · intro v n h h1 h4
    simp only [effectiveNumImages, Option.getD, h]
    rw [if_pos ⟨h1, h4⟩]
  · intro v n h hout
    simp only [effectiveNumImages, Option.getD, h]
    rw [if_neg (by omega)]
  · intro v e h
    simp only [effectiveNumImages, Option.getD, h]
  · intro env kvs w img bs up hgem hgcs himg hpr hdec hpil hgen hup
    have hne : kvs.isEmpty = false := jlookup_isEmpty_false himg
    obtain ⟨images, gcalls, heq, hlen⟩ :=
      genLoop_ok_length env w ("generations/" ++ w.timestamp ++ "_" ++ w.uuid.take 8)
        hgcs hgen (fun j => hup _)
        (effectiveNumImages (jlookup kvs "num_images")) 0 [] []
    refine ⟨images, ?_, by simpa using hlen⟩
    simp [generate_images, generate_imagesRC, hgem, hgcs, jsonFalsy, hne, himg, hpr,
      hdec, hpil, heq]

theorem C8_num_images_witness :
    effectiveNumImages (some (.jint 1)) = Int.toNat 1 ∧
    effectiveNumImages (some (.jstr " 3 ")) = Int.toNat 3 ∧
    effectiveNumImages (some (.jint 7)) = 4 ∧
    effectiveNumImages (some (.jstr "abc")) = 4 ∧
    (∃ images, (generate_images envOk reqImgC wOk).result =
        .resp 200 (.imagesResp wOk.uuid images) ∧
      images.length = effectiveNumImages (jlookup (reqImgC.getD []) "num_images")) := by
  refine ⟨?_, ?_, ?_, ?_, ?_⟩
  · exact C8_num_images.2.1 (.jint 1) 1 rfl (by decide) (by decide)
  · exact C8_num_images.2.1 (.jstr " 3 ") 3 (by decide) (by decide) (by decide)
  · exact C8_num_images.2.2.1 (.jint 7) 7 rfl (.inr (by decide))
  · exact C8_num_images.2.2.2.1 (.jstr "abc")
      (.valueError ("invalid literal for int() with base 10: " ++ "abc")) (by decide)
  · exact C8_num_images.2.2.2.2.2 envOk
      [("image_data", .jstr "aGVsbG8="), ("prompt", .jstr " hi "), ("num_images", .jint 1)]
      wOk "aGVsbG8=" [104, 101, 108, 108, 111] "hi" rfl rfl (by decide) (by decide)
      (by decide) rfl
      (fun j => ⟨goodResp, [1, 2, 3], rfl, rfl⟩) (fun b => rfl)

theorem upload_to_gcs_calls (env : Env) (w : World) (bucket blob : String) :
    ∀ x ∈ (upload_to_gcs env w bucket blob).2, ∃ ok, x = ExtCall.uploadBlob bucket blob ok := by
  intro x hx
  unfold upload_to_gcs at hx
  split at hx
  · simp at hx
  · split at hx <;> simp at hx <;> exact ⟨_, hx⟩

/-- Distinct path suffixes under a shared folder produce distinct blobs. -/
theorem blob_pair_ne (folder t a tail b : String)
    (hlen : 1 < a.data.length) (hne : a.data[1]? ≠ b.data[1]?) :
    folder ++ a ++ t ++ tail ≠ folder ++ b := by
  intro h
  have h2 := congrArg String.data h
  simp only [String.data_append, List.append_assoc] at h2
  have h3 := List.append_cancel_left h2
  have h4 := congrArg (fun l => l[1]?) h3
  simp only at h4
  rw [List.getElem?_append_left hlen] at h4
  exact hne h4

theorem blob_flat_ne (folder a b : String) (hne : a.data ≠ b.data) :
    folder ++ a ≠ folder ++ b := by
  intro h
  have h2 := congrArg String.data h
  simp only [String.data_append] at h2
  exact hne (List.append_cancel_left h2)

/-- Every upload the generation loop adds to the trace is for a generated
image blob. -/
theorem genLoop_calls_uploads (env : Env) (w : World) (folder : String) :
    ∀ fuel i acc calls res calls2,
      genLoop env w folder fuel i acc calls = (res, calls2) →
      ∀ bucket blob ok, ExtCall.uploadBlob bucket blob ok ∈ calls2 →
        ExtCall.uploadBlob bucket blob ok ∈ calls ∨
        (bucket = env.GCS_BUCKET_NAME ∧
          ∃ j, blob = folder ++ "/images/generated-image-" ++ toString (j + 1) ++ ".png") := by
  intro fuel
  induction fuel with
  | zero =>
    intro i acc calls res calls2 h bucket blob ok hmem
    rw [genLoop] at h
    cases h
    exact .inl hmem
  | succ fuel ih =>
    intro i acc calls res calls2 h bucket blob ok hmem
    rw [genLoop] at h
    cases hg : w.genContent i with
    | error e =>
      simp only [hg] at h
      cases h
      rcases List.mem_append.mp hmem with hm | hm
      · exact .inl hm
      · simp at hm
    | ok r =>
      simp only [hg] at h
      cases hbs : extractImageBytes r i with
      | error e =>
        simp only [hbs] at h
        cases h
        rcases List.mem_append.mp hmem with hm | hm
        · exact .inl hm
        · simp at hm
      | ok bts =>
        simp only [hbs] at h
        cases hu : (upload_to_gcs env w env.GCS_BUCKET_NAME
            (folder ++ "/images/generated-image-" ++ toString (i + 1) ++ ".png")).1 with
        | error e =>
          simp only [hu] at h
          cases h
          rcases List.mem_append.mp hmem with hm | hm
          · rcases List.mem_append.mp hm with hm2 | hm2
            · exact .inl hm2
            · simp at hm2
          · obtain ⟨ok2, hok⟩ := upload_to_gcs_calls env w _ _ _ hm
            cases hok
            exact .inr ⟨rfl, i, rfl⟩
        | ok resu =>
          simp only [hu] at h
          rcases ih (i + 1) _ _ res calls2 h bucket blob ok hmem with hm | hm
          · rcases List.mem_append.mp hm with hm2 | hm2
            · rcases List.mem_append.mp hm2 with hm3 | hm3
              · exact .inl hm3
              · simp at hm3
            · obtain ⟨ok2, hok⟩ := upload_to_gcs_calls env w _ _ _ hm2
              cases hok
              exact .inr ⟨rfl, i, rfl⟩
          · exact .inr hm

theorem origUploadCalls_sketch_fail (env : Env) (w : World) (sb pb : String) (e : PyExc)
    (hgcs : env.gcs_client = true) (hf : w.uploadErr sb = some e) :
    origUploadCalls env w sb pb = [.uploadBlob env.GCS_BUCKET_NAME sb false] := by
  unfold origUploadCalls upload_to_gcs
  simp [hgcs, hf]

set_option maxHeartbeats 800000 in
/-- C9: when the upload of the original sketch fails, the exception is
swallowed by the `try`/`except`/`pass` of app.py lines 147-157 (which also
skips the prompt upload), image generation proceeds, and the request still
returns 200 with the generated images, while neither the sketch nor the
prompt was ever successfully stored. -/
theorem C9_original_upload_failure_swallowed
    (env : Env) (kvs : List (String × JVal)) (w : World)
    (img up : String) (bs : List Nat) (e : PyExc)
    (hgem : env.gemini_image_client = true) (hgcs : env.gcs_client = true)
    (himg : jlookup kvs "image_data" = some (.jstr img))
    (hpr : pyStrip ((jlookup kvs "prompt").getD (.jstr "")) = .ok up)
    (hdec : decodeImageData (.jstr img) = .ok bs)
    (hpil : w.pilOpenErr = none)
    (hgen : ∀ j, ∃ r bs2, w.genContent j = .ok r ∧ extractImageBytes r j = .ok bs2)
    (hsf : w.uploadErr ("generations/" ++ w.timestamp ++ "_" ++ w.uuid.take 8 ++
      "/sketches/user-sketch.png") = some e)
    (hoth : ∀ b, b ≠ "generations/" ++ w.timestamp ++ "_" ++ w.uuid.take 8 ++
      "/sketches/user-sketch.png" → w.uploadErr b = none) :
    ∃ images,
      (generate_images env (some kvs) w).result = .resp 200 (.imagesResp w.uuid images) ∧
      images.length = effectiveNumImages (jlookup kvs "num_images") ∧
      ExtCall.uploadBlob env.GCS_BUCKET_NAME
        ("generations/" ++ w.timestamp ++ "_" ++ w.uuid.take 8 ++ "/sketches/user-sketch.png")
        true ∉ (generate_images env (some kvs) w).calls ∧
      ∀ ok2, ExtCall.uploadBlob env.GCS_BUCKET_NAME
        ("generations/" ++ w.timestamp ++ "_" ++ w.uuid.take 8 ++ "/prompts/user-prompt.txt")
        ok2 ∉ (generate_images env (some kvs) w).calls := by
  have hne : kvs.isEmpty = false := jlookup_isEmpty_false himg
  have hup2 : ∀ j, w.uploadErr (("generations/" ++ w.timestamp ++ "_" ++ w.uuid.take 8) ++
      "/images/generated-image-" ++ toString (j + 1) ++ ".png") = none := by
    intro j
    exact hoth _ (blob_pair_ne _ _ _ _ _ (by decide) (by decide))
  obtain ⟨images, gcalls, heq, hlen⟩ :=
    genLoop_ok_length env w ("generations/" ++ w.timestamp ++ "_" ++ w.uuid.take 8)
      hgcs hgen hup2 (effectiveNumImages (jlookup kvs "num_images")) 0 [] []
  have horig := origUploadCalls_sketch_fail env w
    ("generations/" ++ w.timestamp ++ "_" ++ w.uuid.take 8 ++ "/sketches/user-sketch.png")
    ("generations/" ++ w.timestamp ++ "_" ++ w.uuid.take 8 ++ "/prompts/user-prompt.txt")
    e hgcs hsf
  have hout : generate_images env (some kvs) w =
      ⟨.resp 200 (.imagesResp w.uuid images),
       .uploadBlob env.GCS_BUCKET_NAME
         ("generations/" ++ w.timestamp ++ "_" ++ w.uuid.take 8 ++ "/sketches/user-sketch.png")
         false :: gcalls, env⟩ := by
    simp [generate_images, generate_imagesRC, hgem, hgcs, jsonFalsy, hne, himg, hpr,
      hdec, hpil, heq, horig]
  refine ⟨images, by rw [hout], by simpa using hlen, ?_, ?_⟩
  · rw [hout]
    intro hmem
    simp only [List.mem_cons] at hmem
    rcases hmem with hm | hm
    · simp at hm
    · rcases genLoop_calls_uploads env w _ _ 0 [] [] _ gcalls heq _ _ _ hm with hm2 | hm2
      · simp at hm2
      · obtain ⟨_, j, hblob⟩ := hm2
        exact blob_pair_ne _ _ _ _ _ (by decide) (by decide) hblob.symm
  · intro ok2
    rw [hout]
    intro hmem
    simp only [List.mem_cons] at hmem
    rcases hmem with hm | hm
    · rw [ExtCall.uploadBlob.injEq] at hm
      exact blob_flat_ne _ _ _ (by decide) hm.2.1
    · rcases genLoop_calls_uploads env w _ _ 0 [] [] _ gcalls heq _ _ _ hm with hm2 | hm2
      · simp at hm2
      · obtain ⟨_, j, hblob⟩ := hm2
        exact blob_pair_ne _ _ _ _ _ (by decide) (by decide) hblob.symm

theorem toList_append (s t : String) : (s ++ t).toList = s.toList ++ t.toList :=
  String.data_append s t

theorem upload_to_gcs_ok (env : Env) (w : World) (bucket blob : String)
    (res : String × String) (h : (upload_to_gcs env w bucket blob).1 = .ok res) :
    res = ("gs://" ++ bucket ++ "/" ++ blob,
      "https://storage.googleapis.com/" ++ bucket ++ "/" ++ blob) := by
  unfold upload_to_gcs at h
  split at h
  · simp at h
  · split at h
    · simp at h
    · simp at h
      exact h.symm

/-- Every record the generation loop adds carries a gs:// URI and a public
URL naming the same bucket and blob. -/
theorem genLoop_ok_shape (env : Env) (w : World) (folder : String) :
    ∀ fuel i acc calls images calls2,
      genLoop env w folder fuel i acc calls = (.ok images, calls2) →
      (∀ r ∈ acc, ∃ blob,
        r.gcs_uri = "gs://" ++ env.GCS_BUCKET_NAME ++ "/" ++ blob ∧
        r.public_url = "https://storage.googleapis.com/" ++ env.GCS_BUCKET_NAME ++ "/" ++ blob) →
      ∀ r ∈ images, ∃ blob,
        r.gcs_uri = "gs://" ++ env.GCS_BUCKET_NAME ++ "/" ++ blob ∧
        r.public_url = "https://storage.googleapis.com/" ++ env.GCS_BUCKET_NAME ++ "/" ++ blob := by
  intro fuel
  induction fuel with
  | zero =>
    intro i acc calls images calls2 h hacc
    rw [genLoop] at h
    cases h
    exact hacc
  | succ fuel ih =>
    intro i acc calls images calls2 h hacc
    rw [genLoop] at h
    cases hg : w.genContent i with
    | error e => simp only [hg] at h; cases h
    | ok r =>
      simp only [hg] at h
      cases hbs : extractImageBytes r i with
      | error e => simp only [hbs] at h; cases h
      | ok bts =>
        simp only [hbs] at h
        cases hu : (upload_to_gcs env w env.GCS_BUCKET_NAME
            (folder ++ "/images/generated-image-" ++ toString (i + 1) ++ ".png")).1 with
        | error e => simp only [hu] at h; cases h
        | ok resu =>
          simp only [hu] at h
          refine ih (i + 1) _ _ images calls2 h ?_
          intro rec hrec
          rcases List.mem_append.mp hrec with hm | hm
          · exact hacc rec hm
          · have hres := upload_to_gcs_ok env w _ _ _ hu
            simp only [List.mem_singleton] at hm
            subst hm
            rw [hres]
            exact ⟨folder ++ "/images/generated-image-" ++ toString (i + 1) ++ ".png",
              rfl, rfl⟩

theorem isPrefixOf_mp {p l : List Char} (h : p.isPrefixOf l) : p <+: l :=
  List.isPrefixOf_iff_prefix.mp h

theorem isPrefixOf_mpr {p l : List Char} (h : p <+: l) : p.isPrefixOf l :=
  List.isPrefixOf_iff_prefix.mpr h

theorem replListF_no_occur (pat rep : List Char) :
    ∀ fuel l, ¬ pat <:+: l → replListF pat rep fuel l = l := by
  intro fuel
  induction fuel with
  | zero =>
    intro l _
    cases l <;> rfl
  | succ fuel ih =>
    intro l hno
    cases l with
    | nil => rfl
    | cons c rest =>
      rw [replListF]
      rw [if_neg]
      · rw [ih rest (fun hi => hno (List.infix_cons hi))]
      · rintro ⟨hp, -⟩
        exact hno (isPrefixOf_mp hp).isInfix

theorem replListF_strip (pat : List Char) (hne : pat ≠ []) (s : List Char)
    (hno : ¬ pat <:+: s) :
    ∀ fuel, replListF pat [] (fuel + 1) (pat ++ s) = s := by
  intro fuel
  cases pat with
  | nil => exact absurd rfl hne
  | cons p pt =>
    show replListF (p :: pt) [] (fuel + 1) (p :: (pt ++ s)) = s
    rw [replListF]
    rw [if_pos ⟨isPrefixOf_mpr (show (p :: pt) <+: p :: (pt ++ s) from
      List.prefix_append (p :: pt) s), hne⟩]
    have hd : (pt ++ s).drop ((p :: pt).length - 1) = s := by
      simp only [List.length_cons, Nat.add_sub_cancel]
      exact List.drop_left pt s
    rw [hd, replListF_no_occur (p :: pt) [] fuel s hno]
    rfl

/-- Removing the leading `gs://bucket/` from a blob path that does not
itself contain that pattern gives back the blob path: Python's
`str.replace` on the value the handler builds. -/
theorem pyReplace_strip (pat blob : String) (hne : pat.toList ≠ [])
    (hno : ¬ pat.toList <:+: blob.toList) :
    pyReplace (pat ++ blob) pat "" = blob := by
  unfold pyReplace
  have hmt : ("" : String).toList = [] := rfl
  rw [hmt, toList_append]
  have h1 : 0 < pat.toList.length := List.length_pos.mpr hne
  have h2 : (pat.toList ++ blob.toList).length =
      ((pat.toList ++ blob.toList).length - 1) + 1 := by
    rw [List.length_append]
    omega
  rw [h2, replListF_strip pat.toList hne blob.toList hno]
  exact mk_data blob

/-- C5: a successful `/generate-images` response carries, for each image,
a `gs://bucket/blob` URI and the matching
`https://storage.googleapis.com/bucket/blob` URL for the same object; a
successful `/generate-video` response carries a
`https://storage.googleapis.com/bucket/blob` URL derived from the gs:// URI
the operation reported (provided that URI is under the configured bucket
and its blob path does not itself contain the `gs://bucket/` pattern). -/
theorem C5_wellformed_urls :
    (∀ env req w jid images,
      (generate_images env req w).result = .resp 200 (.imagesResp jid images) →
      ∀ r ∈ images, ∃ blob,
        r.gcs_uri = "gs://" ++ env.GCS_BUCKET_NAME ++ "/" ++ blob ∧
        r.public_url = "https://storage.googleapis.com/" ++ env.GCS_BUCKET_NAME ++ "/" ++ blob)
  ∧ (∀ env req w url,
      (generate_video env req w).result = .resp 200 (.videoResp url) →
      (∀ k u, u ∈ w.opVideos k → ∃ blob,
        u = "gs://" ++ env.GCS_BUCKET_NAME ++ "/" ++ blob ∧
        ¬ ("gs://" ++ env.GCS_BUCKET_NAME ++ "/").toList <:+: blob.toList) →
      ∃ blob, url = "https://storage.googleapis.com/" ++ env.GCS_BUCKET_NAME ++ "/" ++ blob) := by
  constructor
  · intro env req w jid images h
    simp only [generate_images, generate_imagesRC] at h
    split at h
    · simp at h
    · split at h
      · simp at h
      · split at h
        · simp at h
        · split at h
          · simp at h
          · split at h
            · simp at h
            · split at h
              · rename_i images0 gcalls heq
                simp only [HttpResult.resp.injEq, Resp.imagesResp.injEq] at h
                obtain ⟨-, -, himg⟩ := h
                subst himg
                exact genLoop_ok_shape env w _ _ 0 [] [] images0 gcalls heq
                  (fun r hr => absurd hr (List.not_mem_nil r))
              · simp at h
  · intro env req w url h hvids
    have hpatne : ("gs://" ++ env.GCS_BUCKET_NAME ++ "/").toList ≠ [] := by
      intro hx
      rw [toList_append] at hx
      obtain ⟨-, hx2⟩ := List.append_eq_nil.mp hx
      exact absurd hx2 (by decide)
    simp only [generate_video, generate_videoRC] at h
    split at h
    · simp at h
    · split at h
      · simp at h
      · split at h
        · simp at h
        · split at h
          · simp at h
          · split at h
            · simp at h
            · split at h
              · simp at h
              · rename_i k heq
                split at h
                · simp at h
                · rename_i hcond
                  simp only [HttpResult.resp.injEq, Resp.videoResp.injEq] at h
                  obtain ⟨-, hurl⟩ := h
                  have hvne : (w.opVideos k).isEmpty = false := by
                    simp only [Bool.or_eq_true, not_or, Bool.not_eq_true] at hcond
                    exact hcond.2
                  have hmem : (w.opVideos k).headD "" ∈ w.opVideos k := by
                    cases hl : w.opVideos k with
                    | nil => rw [hl] at hvne; simp at hvne
                    | cons a l => simp
                  obtain ⟨blob, huri, hno⟩ := hvids k _ hmem
                  refine ⟨blob, ?_⟩
                  rw [← hurl, huri, pyReplace_strip _ _ hpatne hno]

theorem C5_wellformed_urls_witness :
    (∀ r ∈ [(⟨"https://storage.googleapis.com/bkt/generations/2026-01-01_10-00-00_abcd1234/images/generated-image-1.png",
        "gs://bkt/generations/2026-01-01_10-00-00_abcd1234/images/generated-image-1.png"⟩ : ImageRec)],
      ∃ blob, r.gcs_uri = "gs://" ++ envOk.GCS_BUCKET_NAME ++ "/" ++ blob ∧
        r.public_url = "https://storage.googleapis.com/" ++ envOk.GCS_BUCKET_NAME ++ "/" ++ blob)
  ∧ (∃ blob,
      "https://storage.googleapis.com/bkt/generations/2026-01-01_10-00-00_abcd1234/videos/video.mp4" =
        "https://storage.googleapis.com/" ++ envOk.GCS_BUCKET_NAME ++ "/" ++ blob) := by
  constructor
  · exact C5_wellformed_urls.1 envOk reqImgC wOk "abcd1234-0000-4000-8000-000000000000" _
      (by decide)
  · refine C5_wellformed_urls.2 envOk reqVidC wOk _ (by decide) ?_
    intro k u hu
    have hueq : u = "gs://bkt/generations/2026-01-01_10-00-00_abcd1234/videos/video.mp4" := by
      simpa [wOk] using hu
    exact ⟨"generations/2026-01-01_10-00-00_abcd1234/videos/video.mp4",
      by rw [hueq]; decide, by decide⟩

theorem C9_original_upload_failure_swallowed_witness :
    wSketchFail.uploadErr
      ("generations/" ++ wSketchFail.timestamp ++ "_" ++ wSketchFail.uuid.take 8 ++
        "/sketches/user-sketch.png") = some (.googleAPIError "storage unavailable") ∧
    ∃ images,
      (generate_images envOk reqImgC wSketchFail).result =
        .resp 200 (.imagesResp wSketchFail.uuid images) ∧
      images.length = effectiveNumImages (jlookup (reqImgC.getD []) "num_images") ∧
      ExtCall.uploadBlob envOk.GCS_BUCKET_NAME
        ("generations/" ++ wSketchFail.timestamp ++ "_" ++ wSketchFail.uuid.take 8 ++
          "/sketches/user-sketch.png") true
        ∉ (generate_images envOk reqImgC wSketchFail).calls ∧
      ∀ ok2, ExtCall.uploadBlob envOk.GCS_BUCKET_NAME
        ("generations/" ++ wSketchFail.timestamp ++ "_" ++ wSketchFail.uuid.take 8 ++
          "/prompts/user-prompt.txt") ok2
        ∉ (generate_images envOk reqImgC wSketchFail).calls := by
  refine ⟨by decide, ?_⟩
  exact C9_original_upload_failure_swallowed envOk
    [("image_data", .jstr "aGVsbG8="), ("prompt", .jstr " hi "), ("num_images", .jint 1)]
    wSketchFail "aGVsbG8=" "hi" [104, 101, 108, 108, 111]
    (.googleAPIError "storage unavailable")
    rfl rfl (by decide) (by decide) (by decide) rfl
    (fun j => ⟨goodResp, [1, 2, 3], rfl, rfl⟩)
    (by decide)
    (fun b hb => by
      show (if b = "generations/2026-01-01_10-00-00_abcd1234/sketches/user-sketch.png"
        then some (PyExc.googleAPIError "storage unavailable") else none) = none
      rw [if_neg]
      intro hc
      exact hb (hc.trans (by decide)))

end App
